import Mathlib

/-
Verification development for the `ebay_shipping` repository
(single source file `ebay_shipping.py`).

The program is a linear Selenium script.  We model it by a shallow
embedding: every driver primitive the script invokes becomes an event in
an interaction trace (inductive `Ev`), the responses of the live page are
an explicit environment record, and each Python function becomes a total
Lean function from its environment to the trace it produces, the final
page state it leaves, and its outcome (normal return or a propagated
exception).  The control flow of each Lean definition mirrors the Python
source line by line; the doc comment of each definition records the
source lines it embeds and the abstractions taken.
-/

namespace EbayShipping

/-- Exceptions of the selenium layer that the script can observe:
`timeout` is `TimeoutException` from a `WebDriverWait`, `noSuchElement`
is `NoSuchElementException` from `find_element`, `stale` is a
stale-element error from a call on a held element reference, `script`
is an error from `execute_script` / `ActionChains`, `other` covers the
remaining `WebDriverException`s (e.g. from `driver.get`). -/
inductive Exc where
  | timeout
  | noSuchElement
  | stale
  | script
  | other
deriving DecidableEq, Repr

/-- Outcome of running one of the functions of the script: normal return or a
propagated exception. -/
inductive Outcome where
  | ok
  | err (e : Exc)
deriving DecidableEq, Repr

/-- Abstract element selectors used by the script.  The concrete id /
CSS / XPath strings of the source (`grid-table-bulk-checkbox`, the
Shipping-button XPath, ...) only serve to address elements; the control
flow never inspects them, so they are represented by this enumeration. -/
inductive Sel where
  | checkboxId
  | labelForCheckbox
  | shippingButton
  | getLabelItem
  | reviewPurchase
deriving DecidableEq, Repr

/-- One entry of the interaction trace: a driver primitive (or console /
process primitive) invoked by the script, in invocation order.  A
fallible primitive is recorded even when the call raises. -/
inductive Ev where
  | waitPresence (s : Sel)
  | waitEnabled (s : Sel)
  | findElement (s : Sel)
  | findLabels (n : Nat)
  | scroll (s : Sel)
  | readSelected (b : Bool)
  | labelClick
  | pointerClick
  | jsClick (s : Sel)
  | nativeClick (s : Sel)
  | setChecked (b : Bool)
  | dispatch (eventName : String) (bubbles : Bool)
  | waitClickable (s : Sel)
  | waitExpanded
  | mkProfileDir
  | killProc (pid : Nat)
  | buildDriver
  | navigate
  | printLanded
  | readUrl
  | pauseForLogin
  | promptDone
  | quit
deriving DecidableEq, Repr

/-- Embedding of `js_force_check` (src lines 27-38): the injected script
sets the `checked` property of the element to `val` and then dispatches a
bubbling `input` event and a bubbling `change` event, in that order. -/
def js_force_check (val : Bool) : List Ev :=
  [Ev.setChecked val, Ev.dispatch "input" true, Ev.dispatch "change" true]

/-- Outcome of one try-guarded interaction attempt of the bulk-select
cascade, as chosen by the page for the checkbox state the attempt starts
from: either some call inside the `try` block raised (the page is left
with checked state `after` and no verification value was obtained), or
the whole block ran and the verifying `is_selected()` read returned
`after` (which is then also the checked state of the page). -/
inductive Attempt where
  | raise (after : Bool)
  | done (after : Bool)
deriving DecidableEq, Repr

/-- Page/driver responses for one run of `select_all_orders_on_page`
(src lines 75-117).  `presenceOk` / `enabledOk`: the two waits succeed
(else `TimeoutException`); `refindOk`: the re-`find_element` of line 80
succeeds; `scrollOk`: the scroll script of line 82 succeeds; `readOk`:
the `is_selected()` call of line 84 completes; `initChecked`: the
checked state of the checkbox when the function starts (nothing before line
84 changes it); `numLabels`: how many `label[for=...]` elements line 88
finds; the three `Attempt` fields: the response of the page to the
try-guarded label-click / ActionChains-click / JS-click blocks as a
function of the checkbox state they start from; `forceFindOk` /
`forceExecOk`: the unguarded final `find_element` (line 116) and
`execute_script` of `js_force_check` (line 117) succeed. -/
structure SelectEnv where
  presenceOk : Bool
  enabledOk : Bool
  refindOk : Bool
  scrollOk : Bool
  readOk : Bool
  initChecked : Bool
  numLabels : Nat
  labelAttempt : Bool → Attempt
  pointerAttempt : Bool → Attempt
  jsAttempt : Bool → Attempt
  forceFindOk : Bool
  forceExecOk : Bool

/-- Result of one embedded step function: the trace of primitives it
invoked, its outcome, and the checked state of the checkbox when it ends. -/
structure StepResult where
  trace : List Ev
  outcome : Outcome
  checked : Bool
deriving Repr

/-- Shared prefix of every `select_all_orders_on_page` run that reaches
line 84: the two waits, the re-find, the scroll, and the initial
`is_selected()` read. -/
def select_prelude (env : SelectEnv) : List Ev :=
  [Ev.waitPresence Sel.checkboxId, Ev.waitEnabled Sel.checkboxId,
   Ev.findElement Sel.checkboxId, Ev.scroll Sel.checkboxId,
   Ev.readSelected env.initChecked]

/-- Embedding of the last-resort branch of `select_all_orders_on_page`
(src lines 115-117): re-find the checkbox (unguarded, a failure
propagates) and run `js_force_check`. -/
def select_force (env : SelectEnv) (t : List Ev) (s : Bool) : StepResult :=
  if env.forceFindOk then
    if env.forceExecOk then
      ⟨t ++ [Ev.findElement Sel.checkboxId] ++ js_force_check true, Outcome.ok, true⟩
    else
      ⟨t ++ [Ev.findElement Sel.checkboxId], Outcome.err Exc.script, s⟩
  else
    ⟨t ++ [Ev.findElement Sel.checkboxId], Outcome.err Exc.noSuchElement, s⟩

/-- Embedding of the JS-click block of `select_all_orders_on_page`
(src lines 106-113): try-guarded `find_element` + `js_click` + verify;
on verified success return, otherwise fall through to the forced
branch. -/
def select_js_block (env : SelectEnv) (t : List Ev) (s : Bool) : StepResult :=
  match env.jsAttempt s with
  | Attempt.done true =>
      ⟨t ++ [Ev.jsClick Sel.checkboxId, Ev.readSelected true], Outcome.ok, true⟩
  | Attempt.done false =>
      select_force env (t ++ [Ev.jsClick Sel.checkboxId, Ev.readSelected false]) false
  | Attempt.raise a =>
      select_force env (t ++ [Ev.jsClick Sel.checkboxId]) a

/-- Embedding of the ActionChains-click block of
`select_all_orders_on_page` (src lines 97-104): try-guarded
`find_element` + ActionChains move/pause/click + verify; on verified
success return, otherwise fall through to the JS-click block. -/
def select_pointer_block (env : SelectEnv) (t : List Ev) (s : Bool) : StepResult :=
  match env.pointerAttempt s with
  | Attempt.done true =>
      ⟨t ++ [Ev.pointerClick, Ev.readSelected true], Outcome.ok, true⟩
  | Attempt.done false =>
      select_js_block env (t ++ [Ev.pointerClick, Ev.readSelected false]) false
  | Attempt.raise a =>
      select_js_block env (t ++ [Ev.pointerClick]) a

/-- Embedding of `select_all_orders_on_page` (src lines 75-117).
Structure, in source order: wait for presence (line 78), wait for
enabledness (line 79), re-find (line 80), scroll into view (line 82),
early return when already selected (lines 84-85), label lookup and
try-guarded label click with verification (lines 88-95), then the
ActionChains, JS-click and forced blocks.  A failure of an unguarded
call propagates with the corresponding exception; a raise inside a
try-guarded block falls through to the next strategy. -/
def select_all_orders_on_page (env : SelectEnv) : StepResult :=
  if env.presenceOk then
    if env.enabledOk then
      if env.refindOk then
        if env.scrollOk then
          if env.readOk then
            if env.initChecked then
              ⟨select_prelude env, Outcome.ok, true⟩
            else
              let t0 := select_prelude env ++ [Ev.findLabels env.numLabels]
              if env.numLabels = 0 then
                select_pointer_block env t0 false
              else
                match env.labelAttempt false with
                | Attempt.done true =>
                    ⟨t0 ++ [Ev.labelClick, Ev.readSelected true], Outcome.ok, true⟩
                | Attempt.done false =>
                    select_pointer_block env
                      (t0 ++ [Ev.labelClick, Ev.readSelected false]) false
                | Attempt.raise a =>
                    select_pointer_block env (t0 ++ [Ev.labelClick]) a
          else
            ⟨[Ev.waitPresence Sel.checkboxId, Ev.waitEnabled Sel.checkboxId,
              Ev.findElement Sel.checkboxId, Ev.scroll Sel.checkboxId],
             Outcome.err Exc.stale, env.initChecked⟩
        else
          ⟨[Ev.waitPresence Sel.checkboxId, Ev.waitEnabled Sel.checkboxId,
            Ev.findElement Sel.checkboxId, Ev.scroll Sel.checkboxId],
           Outcome.err Exc.script, env.initChecked⟩
      else
        ⟨[Ev.waitPresence Sel.checkboxId, Ev.waitEnabled Sel.checkboxId,
          Ev.findElement Sel.checkboxId],
         Outcome.err Exc.noSuchElement, env.initChecked⟩
    else
      ⟨[Ev.waitPresence Sel.checkboxId, Ev.waitEnabled Sel.checkboxId],
       Outcome.err Exc.timeout, env.initChecked⟩
  else
    ⟨[Ev.waitPresence Sel.checkboxId], Outcome.err Exc.timeout, env.initChecked⟩

/-- Events that interact with the checkbox (as opposed to merely reading
or waiting): an action of one of the four strategies and any synthetic event
dispatch. -/
def isInteractionEv : Ev → Bool
  | Ev.labelClick => true
  | Ev.pointerClick => true
  | Ev.jsClick _ => true
  | Ev.nativeClick _ => true
  | Ev.setChecked _ => true
  | Ev.dispatch _ _ => true
  | _ => false

/-- C2: the bulk-select step is idempotent: when the checkbox is found
present and enabled and the initial `is_selected()` read returns `true`,
`select_all_orders_on_page` returns normally, performs no interaction of
any kind (no label click, no pointer click, no JS click, no forced
assignment, no event dispatch), and leaves the checkbox checked. -/
theorem select_all_idempotent_when_checked (env : SelectEnv)
    (hp : env.presenceOk = true) (he : env.enabledOk = true)
    (hf : env.refindOk = true) (hs : env.scrollOk = true)
    (hr : env.readOk = true) (hc : env.initChecked = true) :
    (select_all_orders_on_page env).outcome = Outcome.ok ∧
    (select_all_orders_on_page env).checked = true ∧
    (select_all_orders_on_page env).trace.filter isInteractionEv = [] := by
  simp [select_all_orders_on_page, hp, he, hf, hs, hr, hc, select_prelude,
    isInteractionEv, List.filter]

/-- Events that mark a strategy of the bulk-select cascade being
attempted: `labelClick` = strategy (a), `pointerClick` = (b),
`jsClick` = (c), `setChecked` = the forced assignment (d). -/
def isStrategyEv : Ev → Bool
  | Ev.labelClick => true
  | Ev.pointerClick => true
  | Ev.jsClick _ => true
  | Ev.setChecked _ => true
  | _ => false

/-- Whether an attempt ended with a verification read of `true`. -/
def attemptVerified : Attempt → Bool
  | Attempt.done true => true
  | _ => false

/-- Checkbox state after an attempt, verified or not. -/
def attemptAfter : Attempt → Bool
  | Attempt.done b => b
  | Attempt.raise b => b

@[simp] theorem attemptVerified_done (b : Bool) :
    attemptVerified (Attempt.done b) = b := by cases b <;> rfl

@[simp] theorem attemptVerified_raise (a : Bool) :
    attemptVerified (Attempt.raise a) = false := rfl

@[simp] theorem attemptAfter_done (b : Bool) :
    attemptAfter (Attempt.done b) = b := rfl

@[simp] theorem attemptAfter_raise (a : Bool) :
    attemptAfter (Attempt.raise a) = a := rfl

/-- Tail of the cascade policy as the spec states it, from strategy (b)
on: attempt pointer click, then JS click, then forced assignment, in
order, verifying after each and stopping at the first verified
success. -/
def spec_cascade_tail (env : SelectEnv) (s : Bool) : List Ev :=
  if attemptVerified (env.pointerAttempt s) then [Ev.pointerClick]
  else if attemptVerified (env.jsAttempt (attemptAfter (env.pointerAttempt s))) then
    [Ev.pointerClick, Ev.jsClick Sel.checkboxId]
  else [Ev.pointerClick, Ev.jsClick Sel.checkboxId, Ev.setChecked true]

/-- The strategy-cascade policy exactly as the spec states it, written
independently of the embedded code: starting from an unchecked box,
attempt in order (a) a label click when a label exists, (b) a pointer
click, (c) a programmatic click, (d) forced state assignment; after each
attempt verify the checked state and stop at the first attempt whose
verification succeeds.  The value is the ordered list of the strategy
markers attempted. -/
def spec_cascade (env : SelectEnv) : List Ev :=
  if env.numLabels = 0 then spec_cascade_tail env false
  else if attemptVerified (env.labelAttempt false) then [Ev.labelClick]
  else Ev.labelClick :: spec_cascade_tail env (attemptAfter (env.labelAttempt false))

/-- Strategy markers produced by `select_js_block` followed by
`select_force`, for the order proof. -/
theorem select_js_block_strategies (env : SelectEnv) (t : List Ev) (s : Bool)
    (hff : env.forceFindOk = true) (hfe : env.forceExecOk = true) :
    (select_js_block env t s).trace.filter isStrategyEv =
      t.filter isStrategyEv ++
        (if attemptVerified (env.jsAttempt s) then [Ev.jsClick Sel.checkboxId]
         else [Ev.jsClick Sel.checkboxId, Ev.setChecked true]) := by
  cases h : env.jsAttempt s with
  | done b =>
    cases b <;>
      simp [select_js_block, select_force, js_force_check, h, hff, hfe,
        List.filter_append, isStrategyEv, List.filter]
  | raise a =>
    simp [select_js_block, select_force, js_force_check, h, hff, hfe,
      List.filter_append, isStrategyEv, List.filter]

/-- Strategy markers produced by `select_pointer_block`, for the order
proof: they are exactly the spec-side cascade tail. -/
theorem select_pointer_block_strategies (env : SelectEnv) (t : List Ev) (s : Bool)
    (hff : env.forceFindOk = true) (hfe : env.forceExecOk = true) :
    (select_pointer_block env t s).trace.filter isStrategyEv =
      t.filter isStrategyEv ++ spec_cascade_tail env s := by
  cases h : env.pointerAttempt s with
  | done b =>
    cases b
    · simp only [select_pointer_block, h]
      rw [select_js_block_strategies env _ false hff hfe]
      simp only [spec_cascade_tail, h, attemptVerified_done, attemptAfter_done,
        Bool.false_eq_true, if_false]
      cases hv : attemptVerified (env.jsAttempt false) <;>
        simp [hv, List.filter_append, isStrategyEv, List.filter]
    · simp [select_pointer_block, h, spec_cascade_tail,
        List.filter_append, isStrategyEv, List.filter]
  | raise a =>
    simp only [select_pointer_block, h]
    rw [select_js_block_strategies env _ a hff hfe]
    simp only [spec_cascade_tail, h, attemptVerified_raise, attemptAfter_raise,
      Bool.false_eq_true, if_false]
    cases hv : attemptVerified (env.jsAttempt a) <;>
      simp [hv, List.filter_append, isStrategyEv, List.filter]

/-- C1: on a present, enabled, initially unchecked checkbox (and with
the unguarded calls of the final branch able to run), the strategies
attempted by `select_all_orders_on_page`, in trace order, are exactly
the cascade of the spec: label click if a label exists, then pointer click,
then programmatic click, then forced assignment, stopping at the first
attempt whose verification succeeds. -/
theorem select_all_strategy_order (env : SelectEnv)
    (hp : env.presenceOk = true) (he : env.enabledOk = true)
    (hf : env.refindOk = true) (hs : env.scrollOk = true)
    (hr : env.readOk = true) (hc : env.initChecked = false)
    (hff : env.forceFindOk = true) (hfe : env.forceExecOk = true) :
    (select_all_orders_on_page env).trace.filter isStrategyEv =
      spec_cascade env := by
  simp only [select_all_orders_on_page, hp, he, hf, hs, hr, hc,
    if_true, if_false, Bool.false_eq_true, ite_false, ite_true]
  by_cases hn : env.numLabels = 0
  · simp only [hn, if_true, spec_cascade]
    rw [select_pointer_block_strategies env _ false hff hfe]
    simp [select_prelude, hc, List.filter_append, isStrategyEv, List.filter]
  · simp only [hn, if_false, spec_cascade]
    cases h : env.labelAttempt false with
    | done b =>
      cases b
      · simp only [h]
        rw [select_pointer_block_strategies env _ false hff hfe]
        simp [select_prelude, hc, h, List.filter_append, isStrategyEv,
          List.filter]
      · simp [select_prelude, hc, h, List.filter_append, isStrategyEv,
          List.filter]
    | raise a =>
      simp only [h]
      rw [select_pointer_block_strategies env _ a hff hfe]
      simp [select_prelude, hc, h, List.filter_append, isStrategyEv,
        List.filter]

/-- Concrete environment for the order witness: the label click and the
pointer click fail verification (the pointer attempt raises), the JS
click verifies. -/
def envOrder : SelectEnv :=
  { presenceOk := true, enabledOk := true, refindOk := true, scrollOk := true,
    readOk := true, initChecked := false, numLabels := 1,
    labelAttempt := fun _ => Attempt.done false,
    pointerAttempt := fun _ => Attempt.raise false,
    jsAttempt := fun _ => Attempt.done true,
    forceFindOk := true, forceExecOk := true }

/-- Witness for C1 at the concrete environment `envOrder`. -/
theorem select_all_strategy_order_witness :
    (envOrder.presenceOk = true ∧ envOrder.enabledOk = true ∧
     envOrder.refindOk = true ∧ envOrder.scrollOk = true ∧
     envOrder.readOk = true ∧ envOrder.initChecked = false ∧
     envOrder.forceFindOk = true ∧ envOrder.forceExecOk = true) ∧
    (select_all_orders_on_page envOrder).trace.filter isStrategyEv =
      spec_cascade envOrder :=
  ⟨⟨rfl, rfl, rfl, rfl, rfl, rfl, rfl, rfl⟩,
   select_all_strategy_order envOrder rfl rfl rfl rfl rfl rfl rfl rfl⟩

/-- Outcome, final state and dispatch counts of the forced branch: it
sets the checkbox checked and adds exactly one bubbling input and one
bubbling change dispatch to the trace. -/
theorem select_force_forced (env : SelectEnv) (t : List Ev) (s : Bool)
    (hff : env.forceFindOk = true) (hfe : env.forceExecOk = true) :
    (select_force env t s).checked = true ∧
    (select_force env t s).outcome = Outcome.ok ∧
    (select_force env t s).trace.count (Ev.dispatch "input" true) =
      t.count (Ev.dispatch "input" true) + 1 ∧
    (select_force env t s).trace.count (Ev.dispatch "change" true) =
      t.count (Ev.dispatch "change" true) + 1 := by
  simp [select_force, hff, hfe, js_force_check, List.count_append,
    List.count_cons, beq_iff_eq]

/-- When the JS click fails verification, `select_js_block` reaches the
forced branch, adding no dispatch of its own. -/
theorem select_js_block_reaches_force (env : SelectEnv) (t : List Ev) (s : Bool)
    (hj : ∀ u, attemptVerified (env.jsAttempt u) = false)
    (hff : env.forceFindOk = true) (hfe : env.forceExecOk = true) :
    (select_js_block env t s).checked = true ∧
    (select_js_block env t s).outcome = Outcome.ok ∧
    (select_js_block env t s).trace.count (Ev.dispatch "input" true) =
      t.count (Ev.dispatch "input" true) + 1 ∧
    (select_js_block env t s).trace.count (Ev.dispatch "change" true) =
      t.count (Ev.dispatch "change" true) + 1 := by
  cases h : env.jsAttempt s with
  | done b =>
    cases b
    · have := select_force_forced env
        (t ++ [Ev.jsClick Sel.checkboxId, Ev.readSelected false]) false hff hfe
      simpa [select_js_block, h, List.count_append, List.count_cons,
        beq_iff_eq] using this
    · exact absurd (hj s) (by simp [h])
  | raise a =>
    have := select_force_forced env (t ++ [Ev.jsClick Sel.checkboxId]) a hff hfe
    simpa [select_js_block, h, List.count_append, List.count_cons,
      beq_iff_eq] using this

/-- When both the pointer click and the JS click fail verification,
`select_pointer_block` reaches the forced branch, adding no dispatch of
its own. -/
theorem select_pointer_block_reaches_force (env : SelectEnv) (t : List Ev)
    (s : Bool)
    (hpo : ∀ u, attemptVerified (env.pointerAttempt u) = false)
    (hj : ∀ u, attemptVerified (env.jsAttempt u) = false)
    (hff : env.forceFindOk = true) (hfe : env.forceExecOk = true) :
    (select_pointer_block env t s).checked = true ∧
    (select_pointer_block env t s).outcome = Outcome.ok ∧
    (select_pointer_block env t s).trace.count (Ev.dispatch "input" true) =
      t.count (Ev.dispatch "input" true) + 1 ∧
    (select_pointer_block env t s).trace.count (Ev.dispatch "change" true) =
      t.count (Ev.dispatch "change" true) + 1 := by
  cases h : env.pointerAttempt s with
  | done b =>
    cases b
    · have := select_js_block_reaches_force env
        (t ++ [Ev.pointerClick, Ev.readSelected false]) false hj hff hfe
      simpa [select_pointer_block, h, List.count_append, List.count_cons,
        beq_iff_eq] using this
    · exact absurd (hpo s) (by simp [h])
  | raise a =>
    have := select_js_block_reaches_force env (t ++ [Ev.pointerClick]) a hj hff hfe
    simpa [select_pointer_block, h, List.count_append, List.count_cons,
      beq_iff_eq] using this

/-- C3: on a present, enabled, initially unchecked checkbox, when the
label-click, pointer-click and JS-click strategies all fail their
verification, `select_all_orders_on_page` reaches the forced branch:
it returns normally with the checkbox checked, and the whole run
dispatches exactly one bubbling input event and exactly one bubbling
change event. -/
theorem select_all_forced_fallback (env : SelectEnv)
    (hp : env.presenceOk = true) (he : env.enabledOk = true)
    (hf : env.refindOk = true) (hs : env.scrollOk = true)
    (hr : env.readOk = true) (hc : env.initChecked = false)
    (hl : ∀ u, attemptVerified (env.labelAttempt u) = false)
    (hpo : ∀ u, attemptVerified (env.pointerAttempt u) = false)
    (hj : ∀ u, attemptVerified (env.jsAttempt u) = false)
    (hff : env.forceFindOk = true) (hfe : env.forceExecOk = true) :
    (select_all_orders_on_page env).checked = true ∧
    (select_all_orders_on_page env).outcome = Outcome.ok ∧
    (select_all_orders_on_page env).trace.count (Ev.dispatch "input" true) = 1 ∧
    (select_all_orders_on_page env).trace.count (Ev.dispatch "change" true) = 1 := by
  simp only [select_all_orders_on_page, hp, he, hf, hs, hr, hc,
    if_true, if_false, Bool.false_eq_true, ite_false, ite_true]
  by_cases hn : env.numLabels = 0
  · have := select_pointer_block_reaches_force env
      (select_prelude env ++ [Ev.findLabels env.numLabels]) false hpo hj hff hfe
    simpa [hn, select_prelude, hc, List.count_append, List.count_cons,
      beq_iff_eq] using this
  · cases h : env.labelAttempt false with
    | done b =>
      cases b
      · have := select_pointer_block_reaches_force env
          (select_prelude env ++ [Ev.findLabels env.numLabels] ++
            [Ev.labelClick, Ev.readSelected false]) false hpo hj hff hfe
        simpa [hn, h, select_prelude, hc, List.count_append, List.count_cons,
          beq_iff_eq] using this
      · exact absurd (hl false) (by simp [h])
    | raise a =>
      have := select_pointer_block_reaches_force env
        (select_prelude env ++ [Ev.findLabels env.numLabels] ++
          [Ev.labelClick]) a hpo hj hff hfe
      simpa [hn, h, select_prelude, hc, List.count_append, List.count_cons,
        beq_iff_eq] using this

/-- Concrete environment in which only the forced assignment succeeds:
the label click raises, the pointer and JS clicks complete but the box
stays unchecked. -/
def envForced : SelectEnv :=
  { presenceOk := true, enabledOk := true, refindOk := true, scrollOk := true,
    readOk := true, initChecked := false, numLabels := 1,
    labelAttempt := fun _ => Attempt.raise false,
    pointerAttempt := fun _ => Attempt.done false,
    jsAttempt := fun _ => Attempt.done false,
    forceFindOk := true, forceExecOk := true }

/-- Witness for C3 at the concrete environment `envForced`. -/
theorem select_all_forced_fallback_witness :
    (envForced.presenceOk = true ∧ envForced.enabledOk = true ∧
     envForced.refindOk = true ∧ envForced.scrollOk = true ∧
     envForced.readOk = true ∧ envForced.initChecked = false ∧
     (∀ u, attemptVerified (envForced.labelAttempt u) = false) ∧
     (∀ u, attemptVerified (envForced.pointerAttempt u) = false) ∧
     (∀ u, attemptVerified (envForced.jsAttempt u) = false) ∧
     envForced.forceFindOk = true ∧ envForced.forceExecOk = true) ∧
    ((select_all_orders_on_page envForced).checked = true ∧
     (select_all_orders_on_page envForced).outcome = Outcome.ok ∧
     (select_all_orders_on_page envForced).trace.count (Ev.dispatch "input" true) = 1 ∧
     (select_all_orders_on_page envForced).trace.count (Ev.dispatch "change" true) = 1) :=
  ⟨⟨rfl, rfl, rfl, rfl, rfl, rfl, fun _ => rfl, fun _ => rfl, fun _ => rfl,
    rfl, rfl⟩,
   select_all_forced_fallback envForced rfl rfl rfl rfl rfl rfl
     (fun _ => rfl) (fun _ => rfl) (fun _ => rfl) rfl rfl⟩

/-- Concrete environment exercising the already-checked early return. -/
def envChecked : SelectEnv :=
  { presenceOk := true, enabledOk := true, refindOk := true, scrollOk := true,
    readOk := true, initChecked := true, numLabels := 1,
    labelAttempt := fun _ => Attempt.done false,
    pointerAttempt := fun _ => Attempt.done false,
    jsAttempt := fun _ => Attempt.done false,
    forceFindOk := true, forceExecOk := true }

/-- Witness for C2 at the concrete environment `envChecked`. -/
theorem select_all_idempotent_when_checked_witness :
    (envChecked.presenceOk = true ∧ envChecked.enabledOk = true ∧
     envChecked.refindOk = true ∧ envChecked.scrollOk = true ∧
     envChecked.readOk = true ∧ envChecked.initChecked = true) ∧
    ((select_all_orders_on_page envChecked).outcome = Outcome.ok ∧
     (select_all_orders_on_page envChecked).checked = true ∧
     (select_all_orders_on_page envChecked).trace.filter isInteractionEv = []) :=
  ⟨⟨rfl, rfl, rfl, rfl, rfl, rfl⟩,
   select_all_idempotent_when_checked envChecked rfl rfl rfl rfl rfl rfl⟩

/-- Result of the `aria-expanded` wait of src line 138: the condition
became true, the wait timed out (`TimeoutException`, the only exception
the `except` clause of line 139 catches), or a call inside the lambda of the wait raised a non-timeout error (e.g. a stale-element error from
`get_attribute`, which `WebDriverWait` does not swallow). -/
inductive WaitOutcome where
  | success
  | timeout
  | raised
deriving DecidableEq, Repr

/-- Page/driver responses for one run of `click_shipping_then_get_label`
(src lines 120-156).  `shippingClickableOk`: the clickable-wait of line
124 succeeds (else `TimeoutException`); `scroll1Ok`: the scroll of line
128 succeeds; `nativeClick1Ok` / `jsClick1Ok`: the native click of line
131 resp. the fallback `js_click` of line 133 succeed; `expandedWait`:
result of the wait of line 138; `refindOk`: the re-`find_element` of
lines 140-143 succeeds; the remaining fields are the same responses for
the menu-item half (lines 146-156). -/
structure MenuEnv where
  shippingClickableOk : Bool
  scroll1Ok : Bool
  nativeClick1Ok : Bool
  jsClick1Ok : Bool
  expandedWait : WaitOutcome
  refindOk : Bool
  itemClickableOk : Bool
  scroll2Ok : Bool
  nativeClick2Ok : Bool
  jsClick2Ok : Bool
deriving Repr

/-- Embedding of the menu-item half of `click_shipping_then_get_label`
(src lines 146-156): clickable-wait on the clickable ancestor of the "Get shipping label" item, scroll, native click with `js_click` fallback. -/
def menu_item_part (env : MenuEnv) : List Ev × Outcome :=
  if env.itemClickableOk then
    if env.scroll2Ok then
      if env.nativeClick2Ok then
        ([Ev.waitClickable Sel.getLabelItem, Ev.scroll Sel.getLabelItem,
          Ev.nativeClick Sel.getLabelItem], Outcome.ok)
      else if env.jsClick2Ok then
        ([Ev.waitClickable Sel.getLabelItem, Ev.scroll Sel.getLabelItem,
          Ev.nativeClick Sel.getLabelItem, Ev.jsClick Sel.getLabelItem],
         Outcome.ok)
      else
        ([Ev.waitClickable Sel.getLabelItem, Ev.scroll Sel.getLabelItem,
          Ev.nativeClick Sel.getLabelItem, Ev.jsClick Sel.getLabelItem],
         Outcome.err Exc.script)
    else
      ([Ev.waitClickable Sel.getLabelItem, Ev.scroll Sel.getLabelItem],
       Outcome.err Exc.script)
  else
    ([Ev.waitClickable Sel.getLabelItem], Outcome.err Exc.timeout)

/-- Embedding of the expanded-wait part of `click_shipping_then_get_label`
(src lines 137-143): wait for `aria-expanded == "true"` on the held
button reference; on `TimeoutException` re-acquire the button by a
second `find_element` lookup (unguarded, a lookup failure propagates)
and continue; a non-timeout raise inside the wait propagates. -/
def menu_expanded_part (env : MenuEnv) : List Ev × Outcome :=
  match env.expandedWait with
  | WaitOutcome.success =>
      (Ev.waitExpanded :: (menu_item_part env).1, (menu_item_part env).2)
  | WaitOutcome.raised =>
      ([Ev.waitExpanded], Outcome.err Exc.stale)
  | WaitOutcome.timeout =>
      if env.refindOk then
        (Ev.waitExpanded :: Ev.findElement Sel.shippingButton ::
          (menu_item_part env).1, (menu_item_part env).2)
      else
        ([Ev.waitExpanded, Ev.findElement Sel.shippingButton],
         Outcome.err Exc.noSuchElement)

/-- Embedding of `click_shipping_then_get_label` (src lines 120-156):
clickable-wait on the Shipping button, scroll, native click with
`js_click` fallback (the fallback itself is unguarded), then the
expanded-wait part and the menu-item half. -/
def click_shipping_then_get_label (env : MenuEnv) : List Ev × Outcome :=
  if env.shippingClickableOk then
    if env.scroll1Ok then
      if env.nativeClick1Ok then
        (Ev.waitClickable Sel.shippingButton :: Ev.scroll Sel.shippingButton ::
          Ev.nativeClick Sel.shippingButton :: (menu_expanded_part env).1,
         (menu_expanded_part env).2)
      else if env.jsClick1Ok then
        (Ev.waitClickable Sel.shippingButton :: Ev.scroll Sel.shippingButton ::
          Ev.nativeClick Sel.shippingButton :: Ev.jsClick Sel.shippingButton ::
          (menu_expanded_part env).1,
         (menu_expanded_part env).2)
      else
        ([Ev.waitClickable Sel.shippingButton, Ev.scroll Sel.shippingButton,
          Ev.nativeClick Sel.shippingButton, Ev.jsClick Sel.shippingButton],
         Outcome.err Exc.script)
    else
      ([Ev.waitClickable Sel.shippingButton, Ev.scroll Sel.shippingButton],
       Outcome.err Exc.script)
  else
    ([Ev.waitClickable Sel.shippingButton], Outcome.err Exc.timeout)

/-- Suffix of a menu-step trace strictly after the re-acquisition lookup
of the Shipping button. -/
def after_refind (t : List Ev) : List Ev :=
  (t.dropWhile (fun e => e != Ev.findElement Sel.shippingButton)).drop 1

/-- Events that use the Shipping-button reference: clicking it (natively
or via script) or polling its expanded state. -/
def isShippingUse : Ev → Bool
  | Ev.nativeClick Sel.shippingButton => true
  | Ev.jsClick Sel.shippingButton => true
  | Ev.waitExpanded => true
  | _ => false

/-- Events of `menu_item_part` address only the menu item: none of them
uses the Shipping-button reference or re-acquires it. -/
theorem menu_item_part_local (env : MenuEnv) :
    (menu_item_part env).1.all (fun e =>
      !isShippingUse e && e != Ev.findElement Sel.shippingButton) = true := by
  unfold menu_item_part
  split_ifs <;> decide

/-- C5: when the Shipping button was found clickable and clicked (by the
native click or its JS fallback) and the expanded-state wait times out,
the button is re-queried from the page — a second element lookup occurs —
the timeout is not propagated, and the step continues to locating the
"Get shipping label" menu item; a timeout outcome of the whole step can
only come from the menu-item wait. -/
theorem menu_timeout_requeries (env : MenuEnv)
    (h1 : env.shippingClickableOk = true) (h2 : env.scroll1Ok = true)
    (h3 : env.nativeClick1Ok = true ∨ env.jsClick1Ok = true)
    (h4 : env.expandedWait = WaitOutcome.timeout)
    (h5 : env.refindOk = true) :
    Ev.findElement Sel.shippingButton ∈ (click_shipping_then_get_label env).1 ∧
    Ev.waitClickable Sel.getLabelItem ∈ (click_shipping_then_get_label env).1 ∧
    ((click_shipping_then_get_label env).2 = Outcome.err Exc.timeout →
      env.itemClickableOk = false) := by
  have hitem : Ev.waitClickable Sel.getLabelItem ∈ (menu_item_part env).1 := by
    unfold menu_item_part
    split_ifs <;> simp
  have houtc : (menu_item_part env).2 = Outcome.err Exc.timeout →
      env.itemClickableOk = false := by
    unfold menu_item_part
    split_ifs with ha hb hc hd <;> simp_all
  rcases h3 with h3 | h3
  · simp only [click_shipping_then_get_label, h1, h2, h3, if_true,
      menu_expanded_part, h4, h5]
    refine ⟨by simp, by simp [hitem], ?_⟩
    simpa using houtc
  · by_cases hn : env.nativeClick1Ok = true
    · simp only [click_shipping_then_get_label, h1, h2, hn, if_true,
        menu_expanded_part, h4, h5]
      refine ⟨by simp, by simp [hitem], ?_⟩
      simpa using houtc
    · simp only [click_shipping_then_get_label, h1, h2, hn, h3,
        Bool.not_eq_true, if_true, if_false, menu_expanded_part, h4, h5,
        ite_true, ite_false]
      refine ⟨by simp, by simp [hitem], ?_⟩
      simpa using houtc

/-- Concrete environment for the expanded-wait-timeout theorems. -/
def envMenuTimeout : MenuEnv :=
  { shippingClickableOk := true, scroll1Ok := true, nativeClick1Ok := true,
    jsClick1Ok := true, expandedWait := WaitOutcome.timeout, refindOk := true,
    itemClickableOk := true, scroll2Ok := true, nativeClick2Ok := true,
    jsClick2Ok := true }

/-- Witness for C5 at the concrete environment `envMenuTimeout`. -/
theorem menu_timeout_requeries_witness :
    (envMenuTimeout.shippingClickableOk = true ∧
     envMenuTimeout.scroll1Ok = true ∧
     (envMenuTimeout.nativeClick1Ok = true ∨ envMenuTimeout.jsClick1Ok = true) ∧
     envMenuTimeout.expandedWait = WaitOutcome.timeout ∧
     envMenuTimeout.refindOk = true) ∧
    (Ev.findElement Sel.shippingButton ∈
       (click_shipping_then_get_label envMenuTimeout).1 ∧
     Ev.waitClickable Sel.getLabelItem ∈
       (click_shipping_then_get_label envMenuTimeout).1 ∧
     ((click_shipping_then_get_label envMenuTimeout).2 = Outcome.err Exc.timeout →
       envMenuTimeout.itemClickableOk = false)) :=
  ⟨⟨rfl, rfl, Or.inl rfl, rfl, rfl⟩,
   menu_timeout_requeries envMenuTimeout rfl rfl (Or.inl rfl) rfl rfl⟩

/-- C10: after the expanded-state wait times out, the re-acquired
Shipping-button reference is never used again: no event after the
re-acquisition lookup clicks the button or polls its expanded state
(execution goes straight to the menu-item lookup), and when the
re-acquisition lookup itself fails, that failure propagates as the
outcome of the step. -/
theorem menu_refind_unused (env : MenuEnv)
    (h1 : env.shippingClickableOk = true) (h2 : env.scroll1Ok = true)
    (h3 : env.nativeClick1Ok = true ∨ env.jsClick1Ok = true)
    (h4 : env.expandedWait = WaitOutcome.timeout) :
    (env.refindOk = false →
      (click_shipping_then_get_label env).2 = Outcome.err Exc.noSuchElement) ∧
    (after_refind (click_shipping_then_get_label env).1).filter isShippingUse
      = [] := by
  have hfilter : (menu_item_part env).1.filter isShippingUse = [] := by
    unfold menu_item_part
    split_ifs <;> simp [isShippingUse, List.filter]
  have hbne1 : (Ev.waitExpanded != Ev.findElement Sel.shippingButton) = true := by
    decide
  have hbne2 : (Ev.findElement Sel.shippingButton !=
      Ev.findElement Sel.shippingButton) = false := by decide
  have hdrop : ∀ t : List Ev,
      (Ev.waitExpanded :: Ev.findElement Sel.shippingButton :: t).dropWhile
        (fun e => e != Ev.findElement Sel.shippingButton) =
        Ev.findElement Sel.shippingButton :: t := by
    intro t
    simp [List.dropWhile, hbne1, hbne2]
  have hexp : ∀ hre : env.refindOk = true,
      (menu_expanded_part env).1 =
        Ev.waitExpanded :: Ev.findElement Sel.shippingButton ::
          (menu_item_part env).1 := by
    intro hre
    simp [menu_expanded_part, h4, hre]
  have hexpf : ∀ hre : env.refindOk = false,
      (menu_expanded_part env) =
        ([Ev.waitExpanded, Ev.findElement Sel.shippingButton],
         Outcome.err Exc.noSuchElement) := by
    intro hre
    simp [menu_expanded_part, h4, hre]
  have hne : env.nativeClick1Ok = true ∨
      (env.nativeClick1Ok = false ∧ env.jsClick1Ok = true) := by
    rcases h3 with h | h
    · exact Or.inl h
    · by_cases hn : env.nativeClick1Ok = true
      · exact Or.inl hn
      · exact Or.inr ⟨by simpa using hn, h⟩
  have htrace : (click_shipping_then_get_label env).1 =
      (Ev.waitClickable Sel.shippingButton :: Ev.scroll Sel.shippingButton ::
        Ev.nativeClick Sel.shippingButton ::
          (if env.nativeClick1Ok then [] else [Ev.jsClick Sel.shippingButton])) ++
        (menu_expanded_part env).1 := by
    rcases hne with hn | ⟨hn, hj⟩
    · simp [click_shipping_then_get_label, h1, h2, hn]
    · simp [click_shipping_then_get_label, h1, h2, hn, hj]
  have houtc : (click_shipping_then_get_label env).2 =
      (menu_expanded_part env).2 := by
    rcases hne with hn | ⟨hn, hj⟩
    · simp [click_shipping_then_get_label, h1, h2, hn]
    · simp [click_shipping_then_get_label, h1, h2, hn, hj]
  constructor
  · intro hre
    rw [houtc, (hexpf hre)]
  · rw [htrace, after_refind]
    have hpre : ∀ l : List Ev,
        ((Ev.waitClickable Sel.shippingButton :: Ev.scroll Sel.shippingButton ::
          Ev.nativeClick Sel.shippingButton ::
            (if env.nativeClick1Ok then [] else [Ev.jsClick Sel.shippingButton]))
          ++ l).dropWhile (fun e => e != Ev.findElement Sel.shippingButton) =
          l.dropWhile (fun e => e != Ev.findElement Sel.shippingButton) := by
      intro l
      have hb1 : (Ev.waitClickable Sel.shippingButton !=
          Ev.findElement Sel.shippingButton) = true := by decide
      have hb2 : (Ev.scroll Sel.shippingButton !=
          Ev.findElement Sel.shippingButton) = true := by decide
      have hb3 : (Ev.nativeClick Sel.shippingButton !=
          Ev.findElement Sel.shippingButton) = true := by decide
      have hb4 : (Ev.jsClick Sel.shippingButton !=
          Ev.findElement Sel.shippingButton) = true := by decide
      by_cases hn : env.nativeClick1Ok = true <;>
        simp [hn, List.dropWhile, hb1, hb2, hb3, hb4]
    rw [hpre]
    by_cases hre : env.refindOk = true
    · rw [hexp hre, hdrop]
      simp [hfilter]
    · have hre' : env.refindOk = false := by simpa using hre
      rw [show (menu_expanded_part env).1 =
          [Ev.waitExpanded, Ev.findElement Sel.shippingButton] by
            rw [hexpf hre'],
        hdrop]
      simp [isShippingUse, List.filter]

/-- Concrete environment where the re-acquisition lookup fails. -/
def envMenuRefindFail : MenuEnv :=
  { shippingClickableOk := true, scroll1Ok := true, nativeClick1Ok := true,
    jsClick1Ok := true, expandedWait := WaitOutcome.timeout, refindOk := false,
    itemClickableOk := true, scroll2Ok := true, nativeClick2Ok := true,
    jsClick2Ok := true }

/-- Witness for C10 at the concrete environment `envMenuRefindFail`. -/
theorem menu_refind_unused_witness :
    (envMenuRefindFail.shippingClickableOk = true ∧
     envMenuRefindFail.scroll1Ok = true ∧
     (envMenuRefindFail.nativeClick1Ok = true ∨
      envMenuRefindFail.jsClick1Ok = true) ∧
     envMenuRefindFail.expandedWait = WaitOutcome.timeout) ∧
    ((envMenuRefindFail.refindOk = false →
      (click_shipping_then_get_label envMenuRefindFail).2 =
        Outcome.err Exc.noSuchElement) ∧
     (after_refind (click_shipping_then_get_label envMenuRefindFail).1).filter
        isShippingUse = []) :=
  ⟨⟨rfl, rfl, Or.inl rfl, rfl⟩,
   menu_refind_unused envMenuRefindFail rfl rfl (Or.inl rfl) rfl⟩

/-- Outcome trichotomy of the forced branch: it returns normally unless
one of its own unguarded calls fails. -/
theorem select_force_outcomes (env : SelectEnv) (t : List Ev) (s : Bool) :
    (select_force env t s).outcome = Outcome.ok ∨
    (env.forceFindOk = false ∧
      (select_force env t s).outcome = Outcome.err Exc.noSuchElement) ∨
    (env.forceFindOk = true ∧ env.forceExecOk = false ∧
      (select_force env t s).outcome = Outcome.err Exc.script) := by
  by_cases hff : env.forceFindOk = true
  · by_cases hfe : env.forceExecOk = true
    · exact Or.inl (by simp [select_force, hff, hfe])
    · refine Or.inr (Or.inr ⟨hff, by simpa using hfe, ?_⟩)
      simp [select_force, hff, by simpa using hfe]
  · refine Or.inr (Or.inl ⟨by simpa using hff, ?_⟩)
    simp [select_force, by simpa using hff]

/-- Outcome trichotomy of the JS-click block: whatever the attempt does
(raise or complete, verified or not), the only possible failures are own failures of the forced branch. -/
theorem select_js_block_outcomes (env : SelectEnv) (t : List Ev) (s : Bool) :
    (select_js_block env t s).outcome = Outcome.ok ∨
    (env.forceFindOk = false ∧
      (select_js_block env t s).outcome = Outcome.err Exc.noSuchElement) ∨
    (env.forceFindOk = true ∧ env.forceExecOk = false ∧
      (select_js_block env t s).outcome = Outcome.err Exc.script) := by
  cases h : env.jsAttempt s with
  | done b =>
    cases b
    · simpa [select_js_block, h] using
        select_force_outcomes env
          (t ++ [Ev.jsClick Sel.checkboxId, Ev.readSelected false]) false
    · exact Or.inl (by simp [select_js_block, h])
  | raise a =>
    simpa [select_js_block, h] using
      select_force_outcomes env (t ++ [Ev.jsClick Sel.checkboxId]) a

/-- Outcome trichotomy of the pointer-click block. -/
theorem select_pointer_block_outcomes (env : SelectEnv) (t : List Ev) (s : Bool) :
    (select_pointer_block env t s).outcome = Outcome.ok ∨
    (env.forceFindOk = false ∧
      (select_pointer_block env t s).outcome = Outcome.err Exc.noSuchElement) ∨
    (env.forceFindOk = true ∧ env.forceExecOk = false ∧
      (select_pointer_block env t s).outcome = Outcome.err Exc.script) := by
  cases h : env.pointerAttempt s with
  | done b =>
    cases b
    · simpa [select_pointer_block, h] using
        select_js_block_outcomes env
          (t ++ [Ev.pointerClick, Ev.readSelected false]) false
    · exact Or.inl (by simp [select_pointer_block, h])
  | raise a =>
    simpa [select_pointer_block, h] using
      select_js_block_outcomes env (t ++ [Ev.pointerClick]) a

/-- C4: exceptions raised inside intermediate fallback attempts are
swallowed.  First part, bulk-select step: once the checkbox is present,
enabled and unchecked, no exception of the try-guarded label / pointer /
JS attempts ever propagates — the step either returns normally or fails
in one of the two unguarded calls of the last (forced) strategy.  Second
part, menu step, Shipping-button cascade (src lines 130-133): when the
native Shipping-button click raises, the raise is swallowed, the JS
fallback click is performed, and (when that fallback itself does not
raise) execution proceeds to the expanded-state wait.  Third part, menu
step, item cascade (src lines 153-156): whenever the step reaches the
item click and the native item click raises, the raise is swallowed and
the JS fallback click on the item is performed, and when that final
fallback does not raise the whole step returns normally — the
intermediate raise is never observable in the outcome. -/
theorem intermediate_raises_swallowed (envS : SelectEnv) (envM : MenuEnv)
    (hp : envS.presenceOk = true) (he : envS.enabledOk = true)
    (hf : envS.refindOk = true) (hs : envS.scrollOk = true)
    (hr : envS.readOk = true) (hc : envS.initChecked = false)
    (hm1 : envM.shippingClickableOk = true) (hm2 : envM.scroll1Ok = true) :
    ((select_all_orders_on_page envS).outcome = Outcome.ok ∨
     (envS.forceFindOk = false ∧
       (select_all_orders_on_page envS).outcome = Outcome.err Exc.noSuchElement) ∨
     (envS.forceFindOk = true ∧ envS.forceExecOk = false ∧
       (select_all_orders_on_page envS).outcome = Outcome.err Exc.script)) ∧
    (envM.nativeClick1Ok = false →
      Ev.jsClick Sel.shippingButton ∈ (click_shipping_then_get_label envM).1 ∧
      (envM.jsClick1Ok = true →
        Ev.waitExpanded ∈ (click_shipping_then_get_label envM).1)) ∧
    ((envM.nativeClick1Ok = true ∨ envM.jsClick1Ok = true) →
      (envM.expandedWait = WaitOutcome.success ∨
        (envM.expandedWait = WaitOutcome.timeout ∧ envM.refindOk = true)) →
      envM.itemClickableOk = true → envM.scroll2Ok = true →
      envM.nativeClick2Ok = false →
        Ev.jsClick Sel.getLabelItem ∈ (click_shipping_then_get_label envM).1 ∧
        (envM.jsClick2Ok = true →
          (click_shipping_then_get_label envM).2 = Outcome.ok)) := by
  refine ⟨?_, ?_, ?_⟩
  · simp only [select_all_orders_on_page, hp, he, hf, hs, hr, hc,
      if_true, if_false, Bool.false_eq_true, ite_false, ite_true]
    by_cases hn : envS.numLabels = 0
    · simpa [hn] using select_pointer_block_outcomes envS
        (select_prelude envS ++ [Ev.findLabels envS.numLabels]) false
    · cases h : envS.labelAttempt false with
      | done b =>
        cases b
        · simpa [hn, h] using select_pointer_block_outcomes envS
            (select_prelude envS ++ [Ev.findLabels envS.numLabels] ++
              [Ev.labelClick, Ev.readSelected false]) false
        · exact Or.inl (by simp [hn, h])
      | raise a =>
        simpa [hn, h] using select_pointer_block_outcomes envS
          (select_prelude envS ++ [Ev.findLabels envS.numLabels] ++
            [Ev.labelClick]) a
  · intro hn
    by_cases hj : envM.jsClick1Ok = true
    · have hexp : Ev.waitExpanded ∈ (menu_expanded_part envM).1 := by
        cases h4 : envM.expandedWait <;>
          by_cases hre : envM.refindOk = true <;>
            simp [menu_expanded_part, h4, hre]
      refine ⟨?_, fun _ => ?_⟩ <;>
        simp [click_shipping_then_get_label, hm1, hm2, hn, hj, hexp]
    · have hj' : envM.jsClick1Ok = false := by simpa using hj
      refine ⟨?_, fun hjj => absurd hjj (by simp [hj'])⟩
      simp [click_shipping_then_get_label, hm1, hm2, hn, hj']
  · intro h3 hreach hi hs2 hn2
    have hitem_mem : Ev.jsClick Sel.getLabelItem ∈ (menu_item_part envM).1 := by
      by_cases hj2 : envM.jsClick2Ok = true <;>
        simp [menu_item_part, hi, hs2, hn2, hj2]
    have hitem_ok : envM.jsClick2Ok = true →
        (menu_item_part envM).2 = Outcome.ok := by
      intro hj2
      simp [menu_item_part, hi, hs2, hn2, hj2]
    have hexp_mem : Ev.jsClick Sel.getLabelItem ∈ (menu_expanded_part envM).1 := by
      rcases hreach with hw | ⟨hw, hre⟩
      · simp [menu_expanded_part, hw, hitem_mem]
      · simp [menu_expanded_part, hw, hre, hitem_mem]
    have hexp_ok : envM.jsClick2Ok = true →
        (menu_expanded_part envM).2 = Outcome.ok := by
      intro hj2
      rcases hreach with hw | ⟨hw, hre⟩
      · simp [menu_expanded_part, hw, hitem_ok hj2]
      · simp [menu_expanded_part, hw, hre, hitem_ok hj2]
    have hne : envM.nativeClick1Ok = true ∨
        (envM.nativeClick1Ok = false ∧ envM.jsClick1Ok = true) := by
      rcases h3 with h | h
      · exact Or.inl h
      · by_cases hn : envM.nativeClick1Ok = true
        · exact Or.inl hn
        · exact Or.inr ⟨by simpa using hn, h⟩
    constructor
    · rcases hne with hn | ⟨hn, hj⟩
      · simp [click_shipping_then_get_label, hm1, hm2, hn, hexp_mem]
      · simp [click_shipping_then_get_label, hm1, hm2, hn, hj, hexp_mem]
    · intro hj2
      rcases hne with hn | ⟨hn, hj⟩
      · simp [click_shipping_then_get_label, hm1, hm2, hn, hexp_ok hj2]
      · simp [click_shipping_then_get_label, hm1, hm2, hn, hj, hexp_ok hj2]

/-- Concrete environments for the exception-swallowing witness: every
intermediate attempt of the bulk-select cascade raises, and the native
Shipping-button click raises. -/
def envSwallowS : SelectEnv :=
  { presenceOk := true, enabledOk := true, refindOk := true, scrollOk := true,
    readOk := true, initChecked := false, numLabels := 1,
    labelAttempt := fun _ => Attempt.raise false,
    pointerAttempt := fun _ => Attempt.raise false,
    jsAttempt := fun _ => Attempt.raise false,
    forceFindOk := true, forceExecOk := true }

/-- Menu environment whose native Shipping click and native item click
both raise while the JS fallbacks succeed. -/
def envSwallowM : MenuEnv :=
  { shippingClickableOk := true, scroll1Ok := true, nativeClick1Ok := false,
    jsClick1Ok := true, expandedWait := WaitOutcome.success, refindOk := true,
    itemClickableOk := true, scroll2Ok := true, nativeClick2Ok := false,
    jsClick2Ok := true }

/-- Witness for C4 at the concrete environments `envSwallowS` and
`envSwallowM`. -/
theorem intermediate_raises_swallowed_witness :
    (envSwallowS.presenceOk = true ∧ envSwallowS.enabledOk = true ∧
     envSwallowS.refindOk = true ∧ envSwallowS.scrollOk = true ∧
     envSwallowS.readOk = true ∧ envSwallowS.initChecked = false ∧
     envSwallowM.shippingClickableOk = true ∧ envSwallowM.scroll1Ok = true) ∧
    (((select_all_orders_on_page envSwallowS).outcome = Outcome.ok ∨
      (envSwallowS.forceFindOk = false ∧
        (select_all_orders_on_page envSwallowS).outcome =
          Outcome.err Exc.noSuchElement) ∨
      (envSwallowS.forceFindOk = true ∧ envSwallowS.forceExecOk = false ∧
        (select_all_orders_on_page envSwallowS).outcome =
          Outcome.err Exc.script)) ∧
     (envSwallowM.nativeClick1Ok = false →
       Ev.jsClick Sel.shippingButton ∈
         (click_shipping_then_get_label envSwallowM).1 ∧
       (envSwallowM.jsClick1Ok = true →
         Ev.waitExpanded ∈ (click_shipping_then_get_label envSwallowM).1)) ∧
     ((envSwallowM.nativeClick1Ok = true ∨ envSwallowM.jsClick1Ok = true) →
       (envSwallowM.expandedWait = WaitOutcome.success ∨
         (envSwallowM.expandedWait = WaitOutcome.timeout ∧
           envSwallowM.refindOk = true)) →
       envSwallowM.itemClickableOk = true → envSwallowM.scroll2Ok = true →
       envSwallowM.nativeClick2Ok = false →
         Ev.jsClick Sel.getLabelItem ∈
           (click_shipping_then_get_label envSwallowM).1 ∧
         (envSwallowM.jsClick2Ok = true →
           (click_shipping_then_get_label envSwallowM).2 = Outcome.ok))) :=
  ⟨⟨rfl, rfl, rfl, rfl, rfl, rfl, rfl, rfl⟩,
   intermediate_raises_swallowed envSwallowS envSwallowM
     rfl rfl rfl rfl rfl rfl rfl rfl⟩

/-- Target address of src line 19; the control flow never inspects it,
both `driver.get(URL)` calls are the `Ev.navigate` event. -/
def URL : String := "https://www.ebay.com/sh/ord/?filter=status:AWAITING_SHIPMENT"

/-- Identifier of src line 20; elements located by it are addressed as
`Sel.checkboxId`. -/
def CHECKBOX_ID : String := "grid-table-bulk-checkbox"

/-- Page responses for one run of `click_review_purchase`
(src lines 159-171). -/
structure ReviewEnv where
  clickableOk : Bool
  scrollOk : Bool
  nativeOk : Bool
  jsOk : Bool
deriving DecidableEq, Repr

/-- Embedding of `click_review_purchase` (src lines 159-171):
clickable-wait on the Review-purchase button, scroll, native click with
`js_click` fallback (the fallback itself unguarded). -/
def click_review_purchase (env : ReviewEnv) : List Ev × Outcome :=
  if env.clickableOk then
    if env.scrollOk then
      if env.nativeOk then
        ([Ev.waitClickable Sel.reviewPurchase, Ev.scroll Sel.reviewPurchase,
          Ev.nativeClick Sel.reviewPurchase], Outcome.ok)
      else if env.jsOk then
        ([Ev.waitClickable Sel.reviewPurchase, Ev.scroll Sel.reviewPurchase,
          Ev.nativeClick Sel.reviewPurchase, Ev.jsClick Sel.reviewPurchase],
         Outcome.ok)
      else
        ([Ev.waitClickable Sel.reviewPurchase, Ev.scroll Sel.reviewPurchase,
          Ev.nativeClick Sel.reviewPurchase, Ev.jsClick Sel.reviewPurchase],
         Outcome.err Exc.script)
    else
      ([Ev.waitClickable Sel.reviewPurchase, Ev.scroll Sel.reviewPurchase],
       Outcome.err Exc.script)
  else
    ([Ev.waitClickable Sel.reviewPurchase], Outcome.err Exc.timeout)

/-- Character-wise embedding of Python str.lower as used on the current
URL (src line 175) and the process name (src line 54). -/
def py_lower (s : String) : String := String.mk (s.data.map Char.toLower)

/-- Embedding of the Python substring operator `needle in hay`
(src lines 64 and 176). -/
def containsSub (needle hay : String) : Bool := decide (needle.data <:+: hay.data)

/-- Condition of src line 176 deciding the manual-login pause: the
lower-cased current URL contains "signin" or "login"; a missing
`current_url` is replaced by the empty string (src line 175). -/
def pause_needed (currentUrl : Option String) : Bool :=
  containsSub "signin" (py_lower (currentUrl.getD "")) ||
  containsSub "login" (py_lower (currentUrl.getD ""))

/-- Embedding of `ensure_logged_in_or_pause` (src lines 174-178): read
the current URL; when the pause condition holds, print the prompt and
block on console input. -/
def ensure_logged_in_or_pause (currentUrl : Option String) : List Ev :=
  if pause_needed currentUrl then [Ev.readUrl, Ev.pauseForLogin]
  else [Ev.readUrl]

/-- One running process as `psutil.process_iter(["pid","name","cmdline"])`
reports it (src line 52): pid, name and command line (either of the
latter may be missing), and whether `proc.kill()` would succeed —
`killOk = false` models `psutil.AccessDenied` (or `psutil.NoSuchProcess`
for a process that vanished) raised by the kill and caught at src
line 67. -/
structure Proc where
  pid : Nat
  name : Option String
  cmdline : Option (List String)
  killOk : Bool
deriving DecidableEq, Repr

/-- Matching predicate of src lines 54-64: the lower-cased process name
contains "chrome", the command line is present and non-empty, and the
space-joined command line contains the absolute profile path. -/
def proc_matches (profile_dir_abs : String) (p : Proc) : Bool :=
  containsSub "chrome" (py_lower (p.name.getD "")) &&
  !(p.cmdline.getD []).isEmpty &&
  containsSub profile_dir_abs (String.intercalate " " (p.cmdline.getD []))

/-- Embedding of `kill_chrome_using_profile` (src lines 41-72): iterate
over the running processes and kill each matching one; a
`NoSuchProcess` / `AccessDenied` raised for one process (modelled by
`killOk = false`) is caught at src line 67 and iteration continues with
the remaining processes.  The trace records the successful kills in
iteration order.  `os.path.abspath` (src line 50) is abstracted: the
function receives the absolute profile path it matches with. -/
def kill_chrome_using_profile (profile_dir_abs : String) (procs : List Proc) :
    List Ev :=
  (procs.filter (fun p => proc_matches profile_dir_abs p && p.killOk)).map
    (fun p => Ev.killProc p.pid)

/-- Absolute path of the dedicated profile directory computed at src
line 205 from the location of the script itself, abstracted as a fixed string
constant. -/
def PROFILE_DIR : String := "chrome_profile_selenium"

/-- Inputs of one entire run of `main` (src lines 203-238): the process
list seen by the stale-session cleanup, whether `build_driver`
(src lines 181-200) succeeds, whether each of the two `driver.get(URL)`
calls succeeds, the URL the first navigation lands on (`none` when the
driver reports no URL), whether the `is_selected` read of src line 225
succeeds, and the page environments of the three interaction steps. -/
structure MainEnv where
  procs : List Proc
  buildOk : Bool
  get1Ok : Bool
  landedUrl : Option String
  get2Ok : Bool
  selectEnv : SelectEnv
  stateReadOk : Bool
  menuEnv : MenuEnv
  reviewEnv : ReviewEnv

/-- Embedding of the `try` body of `main` (src lines 214-235): first
navigation, landing print, login check, unconditional re-navigation,
then the three interaction steps with their progress prints and the
final console prompt; a propagated exception aborts the remaining
steps. -/
def main_try_body (env : MainEnv) : List Ev × Outcome :=
  if env.get1Ok then
    let t1 := Ev.navigate :: Ev.printLanded ::
      ensure_logged_in_or_pause env.landedUrl
    if env.get2Ok then
      let r := select_all_orders_on_page env.selectEnv
      match r.outcome with
      | Outcome.err e => (t1 ++ Ev.navigate :: r.trace, Outcome.err e)
      | Outcome.ok =>
        if env.stateReadOk then
          let rm := click_shipping_then_get_label env.menuEnv
          match rm.2 with
          | Outcome.err e =>
              (t1 ++ Ev.navigate :: r.trace ++ Ev.findElement Sel.checkboxId ::
                Ev.readSelected r.checked :: rm.1, Outcome.err e)
          | Outcome.ok =>
            let rr := click_review_purchase env.reviewEnv
            match rr.2 with
            | Outcome.err e =>
                (t1 ++ Ev.navigate :: r.trace ++ Ev.findElement Sel.checkboxId ::
                  Ev.readSelected r.checked :: (rm.1 ++ rr.1), Outcome.err e)
            | Outcome.ok =>
                (t1 ++ Ev.navigate :: r.trace ++ Ev.findElement Sel.checkboxId ::
                  Ev.readSelected r.checked :: (rm.1 ++ rr.1 ++ [Ev.promptDone]),
                 Outcome.ok)
        else
          (t1 ++ Ev.navigate :: r.trace ++ [Ev.findElement Sel.checkboxId],
           Outcome.err Exc.noSuchElement)
    else (t1 ++ [Ev.navigate], Outcome.err Exc.other)
  else ([Ev.navigate], Outcome.err Exc.other)

/-- Embedding of `main` (src lines 203-238): create the profile
directory, terminate stale sessions bound to it, build the driver, then
run the try body with `driver.quit()` guaranteed by the `finally` of
src line 237; when `build_driver` itself raises, no driver exists yet
and no quit happens. -/
def main (env : MainEnv) : List Ev × Outcome :=
  let pre := Ev.mkProfileDir :: kill_chrome_using_profile PROFILE_DIR env.procs
  if env.buildOk then
    ((pre ++ [Ev.buildDriver]) ++ (main_try_body env).1 ++ [Ev.quit],
     (main_try_body env).2)
  else (pre ++ [Ev.buildDriver], Outcome.err Exc.other)

/-- Events that the three page-interaction steps can emit, as opposed to
the navigation / console / process events that only `main` and its
direct helpers emit. -/
def isStepEv : Ev → Bool
  | Ev.mkProfileDir => false
  | Ev.killProc _ => false
  | Ev.buildDriver => false
  | Ev.navigate => false
  | Ev.printLanded => false
  | Ev.readUrl => false
  | Ev.pauseForLogin => false
  | Ev.promptDone => false
  | Ev.quit => false
  | _ => true

/-- The forced branch only adds step events to its trace. -/
theorem select_force_stepEv (env : SelectEnv) (t : List Ev) (s : Bool)
    (h : t.all isStepEv = true) :
    (select_force env t s).trace.all isStepEv = true := by
  unfold select_force
  split_ifs <;> simp [List.all_append, h, js_force_check, isStepEv]

/-- The JS-click block only adds step events to its trace. -/
theorem select_js_block_stepEv (env : SelectEnv) (t : List Ev) (s : Bool)
    (h : t.all isStepEv = true) :
    (select_js_block env t s).trace.all isStepEv = true := by
  cases hj : env.jsAttempt s with
  | done b =>
    cases b
    · have := select_force_stepEv env
        (t ++ [Ev.jsClick Sel.checkboxId, Ev.readSelected false]) false
        (by simp [List.all_append, h, isStepEv])
      simpa [select_js_block, hj] using this
    · simp [select_js_block, hj, List.all_append, h, isStepEv]
  | raise a =>
    have := select_force_stepEv env (t ++ [Ev.jsClick Sel.checkboxId]) a
      (by simp [List.all_append, h, isStepEv])
    simpa [select_js_block, hj] using this

/-- The pointer-click block only adds step events to its trace. -/
theorem select_pointer_block_stepEv (env : SelectEnv) (t : List Ev) (s : Bool)
    (h : t.all isStepEv = true) :
    (select_pointer_block env t s).trace.all isStepEv = true := by
  cases hp : env.pointerAttempt s with
  | done b =>
    cases b
    · have := select_js_block_stepEv env
        (t ++ [Ev.pointerClick, Ev.readSelected false]) false
        (by simp [List.all_append, h, isStepEv])
      simpa [select_pointer_block, hp] using this
    · simp [select_pointer_block, hp, List.all_append, h, isStepEv]
  | raise a =>
    have := select_js_block_stepEv env (t ++ [Ev.pointerClick]) a
      (by simp [List.all_append, h, isStepEv])
    simpa [select_pointer_block, hp] using this

/-- Prelude trace plus label lookup only holds step events. -/
theorem select_prelude_stepEv (env : SelectEnv) :
    ((select_prelude env ++ [Ev.findLabels env.numLabels]).all isStepEv)
      = true := by
  simp [select_prelude, List.all_append, isStepEv]

/-- Every event of a bulk-select trace is a step event. -/
theorem select_all_stepEv (env : SelectEnv) :
    (select_all_orders_on_page env).trace.all isStepEv = true := by
  unfold select_all_orders_on_page
  split_ifs with h1 h2 h3 h4 h5 h6 h7
  · simp [select_prelude, isStepEv]
  · exact select_pointer_block_stepEv env
      (select_prelude env ++ [Ev.findLabels env.numLabels]) false
      (select_prelude_stepEv env)
  · cases hl : env.labelAttempt false with
    | done b =>
      cases b
      · have := select_pointer_block_stepEv env
          (select_prelude env ++ [Ev.findLabels env.numLabels] ++
            [Ev.labelClick, Ev.readSelected false]) false
          (by simp [List.all_append, select_prelude, isStepEv])
        simpa [hl] using this
      · simp [hl, select_prelude, List.all_append, isStepEv]
    | raise a =>
      have := select_pointer_block_stepEv env
        (select_prelude env ++ [Ev.findLabels env.numLabels] ++
          [Ev.labelClick]) a
        (by simp [List.all_append, select_prelude, isStepEv])
      simpa [hl] using this
  · simp [isStepEv]
  · simp [isStepEv]
  · simp [isStepEv]
  · simp [isStepEv]
  · simp [isStepEv]

/-- Every event of a menu-item trace is a step event. -/
theorem menu_item_part_stepEv (env : MenuEnv) :
    (menu_item_part env).1.all isStepEv = true := by
  unfold menu_item_part
  split_ifs <;> decide

/-- Every event of an expanded-wait trace is a step event. -/
theorem menu_expanded_part_stepEv (env : MenuEnv) :
    (menu_expanded_part env).1.all isStepEv = true := by
  unfold menu_expanded_part
  cases env.expandedWait with
  | success => simp [List.all_cons, menu_item_part_stepEv, isStepEv]
  | raised => simp [isStepEv]
  | timeout =>
    by_cases hre : env.refindOk = true <;>
      simp [hre, List.all_cons, menu_item_part_stepEv, isStepEv]

/-- Every event of a menu-step trace is a step event. -/
theorem click_shipping_stepEv (env : MenuEnv) :
    (click_shipping_then_get_label env).1.all isStepEv = true := by
  unfold click_shipping_then_get_label
  split_ifs <;>
    simp [List.all_cons, menu_expanded_part_stepEv, isStepEv]

/-- Every event of a review-step trace is a step event. -/
theorem click_review_stepEv (env : ReviewEnv) :
    (click_review_purchase env).1.all isStepEv = true := by
  unfold click_review_purchase
  split_ifs <;> decide

/-- A non-step event never occurs in a list all of whose events are step
events, so its count there is zero. -/
theorem stepEv_count_zero (l : List Ev) (h : l.all isStepEv = true) (e : Ev)
    (he : isStepEv e = false) : l.count e = 0 := by
  rw [List.count_eq_zero]
  intro hm
  have := List.all_eq_true.mp h e hm
  rw [he] at this
  exact Bool.false_ne_true this

/-- Count of any non-kill event in a stale-session cleanup trace is
zero. -/
theorem kill_count_zero (profile : String) (procs : List Proc) (e : Ev)
    (he : ∀ n : Nat, e ≠ Ev.killProc n) :
    (kill_chrome_using_profile profile procs).count e = 0 := by
  rw [List.count_eq_zero]
  intro hm
  rcases List.mem_map.mp hm with ⟨p, _, hp⟩
  exact he p.pid hp.symm

/-- C7: on every run in which the browser session was created
(`build_driver` returned), the session is terminated before the program
ends: the trace of `main` ends with `driver.quit`, the quit happens
exactly once, and this holds whatever outcome the try body produced —
in particular an unresolved wait timeout propagates as the final outcome but never bypasses the cleanup. -/
theorem main_quits_on_every_exit (env : MainEnv) (hb : env.buildOk = true) :
    (main env).1.getLast? = some Ev.quit ∧
    (main env).1.count Ev.quit = 1 ∧
    ((main env).2 = (main_try_body env).2) := by
  have hkill : (kill_chrome_using_profile PROFILE_DIR env.procs).count Ev.quit
      = 0 := kill_count_zero _ _ _ (fun n h => by cases h)
  have hbody : (main_try_body env).1.count Ev.quit = 0 := by
    unfold main_try_body
    by_cases h1 : env.get1Ok = true
    · by_cases h2 : env.get2Ok = true
      · have hsel := stepEv_count_zero _ (select_all_stepEv env.selectEnv)
          Ev.quit rfl
        have hmenu := stepEv_count_zero _ (click_shipping_stepEv env.menuEnv)
          Ev.quit rfl
        have hrev := stepEv_count_zero _ (click_review_stepEv env.reviewEnv)
          Ev.quit rfl
        have hens : (ensure_logged_in_or_pause env.landedUrl).count Ev.quit
            = 0 := by
          unfold ensure_logged_in_or_pause
          split_ifs <;> decide
        cases hro : (select_all_orders_on_page env.selectEnv).outcome with
        | err e =>
          simp [h1, h2, hro, List.count_append, List.count_cons, hsel, hens,
            beq_iff_eq]
        | ok =>
          by_cases h3 : env.stateReadOk = true
          · cases hrm : (click_shipping_then_get_label env.menuEnv).2 with
            | err e =>
              simp [h1, h2, h3, hro, hrm, List.count_append, List.count_cons,
                hsel, hmenu, hens, beq_iff_eq]
            | ok =>
              cases hrr : (click_review_purchase env.reviewEnv).2 with
              | err e =>
                simp [h1, h2, h3, hro, hrm, hrr, List.count_append,
                  List.count_cons, hsel, hmenu, hrev, hens, beq_iff_eq]
              | ok =>
                simp [h1, h2, h3, hro, hrm, hrr, List.count_append,
                  List.count_cons, hsel, hmenu, hrev, hens, beq_iff_eq]
          · have h3' : env.stateReadOk = false := by simpa using h3
            simp [h1, h2, h3', hro, List.count_append, List.count_cons, hsel,
              hens, beq_iff_eq]
      · have h2' : env.get2Ok = false := by simpa using h2
        have hens : (ensure_logged_in_or_pause env.landedUrl).count Ev.quit
            = 0 := by
          unfold ensure_logged_in_or_pause
          split_ifs <;> decide
        simp [h1, h2', List.count_append, List.count_cons, hens, beq_iff_eq]
    · have h1' : env.get1Ok = false := by simpa using h1
      simp [h1', List.count_cons, beq_iff_eq]
  refine ⟨?_, ?_, ?_⟩
  · simp only [main, hb, if_true]
    exact List.getLast?_concat _
  · simp [main, hb, List.count_append, List.count_cons, hkill, hbody,
      beq_iff_eq]
  · simp [main, hb]

/-- Select-step environment that succeeds immediately (box already
checked). -/
def envSelOk : SelectEnv :=
  { presenceOk := true, enabledOk := true, refindOk := true, scrollOk := true,
    readOk := true, initChecked := true, numLabels := 0,
    labelAttempt := fun _ => Attempt.done true,
    pointerAttempt := fun _ => Attempt.done true,
    jsAttempt := fun _ => Attempt.done true,
    forceFindOk := true, forceExecOk := true }

/-- Menu-step environment that succeeds on the first attempt
everywhere. -/
def envMenuOk : MenuEnv :=
  { shippingClickableOk := true, scroll1Ok := true, nativeClick1Ok := true,
    jsClick1Ok := true, expandedWait := WaitOutcome.success, refindOk := true,
    itemClickableOk := true, scroll2Ok := true, nativeClick2Ok := true,
    jsClick2Ok := true }

/-- Review-step environment that succeeds on the first attempt. -/
def envRevOk : ReviewEnv :=
  { clickableOk := true, scrollOk := true, nativeOk := true, jsOk := true }

/-- Whole-run environment for the cleanup witness: an ordinary signed-in
run. -/
def envMainQuit : MainEnv :=
  { procs := [], buildOk := true, get1Ok := true,
    landedUrl := some "https://www.ebay.com/sh/ord/", get2Ok := true,
    selectEnv := envSelOk, stateReadOk := true, menuEnv := envMenuOk,
    reviewEnv := envRevOk }

/-- Witness for C7 at the concrete environment `envMainQuit`. -/
theorem main_quits_on_every_exit_witness :
    envMainQuit.buildOk = true ∧
    ((main envMainQuit).1.getLast? = some Ev.quit ∧
     (main envMainQuit).1.count Ev.quit = 1 ∧
     ((main envMainQuit).2 = (main_try_body envMainQuit).2)) :=
  ⟨rfl, main_quits_on_every_exit envMainQuit rfl⟩

/-- Lower-casing preserves containment of an already-lower-case
needle. -/
theorem containsSub_py_lower (needle s : String)
    (hn : needle.data.map Char.toLower = needle.data)
    (h : containsSub needle s = true) :
    containsSub needle (py_lower s) = true := by
  simp only [containsSub, decide_eq_true_iff] at h ⊢
  have hmap := List.IsInfix.map Char.toLower h
  rw [hn] at hmap
  simpa [py_lower] using hmap

/-- A non-step event never occurs in a list all of whose events are
step events. -/
theorem stepEv_not_mem (l : List Ev) (h : l.all isStepEv = true) (e : Ev)
    (he : isStepEv e = false) : e ∉ l := by
  intro hm
  have := List.all_eq_true.mp h e hm
  rw [he] at this
  exact Bool.false_ne_true this

/-- When the first navigation succeeded and the pause condition holds,
the try body of `main` pauses right after reading the URL and then
navigates exactly once more. -/
theorem main_try_body_pause_decomp (env : MainEnv) (h1 : env.get1Ok = true)
    (hp : pause_needed env.landedUrl = true) :
    ∃ rest, (main_try_body env).1 =
      Ev.navigate :: Ev.printLanded :: Ev.readUrl :: Ev.pauseForLogin :: rest ∧
      rest.count Ev.navigate = 1 := by
  have hsel := stepEv_count_zero _ (select_all_stepEv env.selectEnv)
    Ev.navigate rfl
  have hmenu := stepEv_count_zero _ (click_shipping_stepEv env.menuEnv)
    Ev.navigate rfl
  have hrev := stepEv_count_zero _ (click_review_stepEv env.reviewEnv)
    Ev.navigate rfl
  have hens : ensure_logged_in_or_pause env.landedUrl =
      [Ev.readUrl, Ev.pauseForLogin] := by
    simp [ensure_logged_in_or_pause, hp]
  unfold main_try_body
  rw [hens]
  by_cases h2 : env.get2Ok = true
  · cases hro : (select_all_orders_on_page env.selectEnv).outcome with
    | err e =>
      refine ⟨Ev.navigate :: (select_all_orders_on_page env.selectEnv).trace,
        ?_, ?_⟩
      · simp [h1, h2, hro]
      · simp [List.count_cons, hsel, beq_iff_eq]
    | ok =>
      by_cases h3 : env.stateReadOk = true
      · cases hrm : (click_shipping_then_get_label env.menuEnv).2 with
        | err e =>
          refine ⟨Ev.navigate :: ((select_all_orders_on_page env.selectEnv).trace
            ++ Ev.findElement Sel.checkboxId ::
              Ev.readSelected (select_all_orders_on_page env.selectEnv).checked ::
              (click_shipping_then_get_label env.menuEnv).1), ?_, ?_⟩
          · simp [h1, h2, h3, hro, hrm]
          · simp [List.count_cons, List.count_append, hsel, hmenu, beq_iff_eq]
        | ok =>
          cases hrr : (click_review_purchase env.reviewEnv).2 with
          | err e =>
            refine ⟨Ev.navigate ::
              ((select_all_orders_on_page env.selectEnv).trace
                ++ Ev.findElement Sel.checkboxId ::
                Ev.readSelected (select_all_orders_on_page env.selectEnv).checked ::
                ((click_shipping_then_get_label env.menuEnv).1 ++
                  (click_review_purchase env.reviewEnv).1)), ?_, ?_⟩
            · simp [h1, h2, h3, hro, hrm, hrr]
            · simp [List.count_cons, List.count_append, hsel, hmenu, hrev,
                beq_iff_eq]
          | ok =>
            refine ⟨Ev.navigate ::
              ((select_all_orders_on_page env.selectEnv).trace
                ++ Ev.findElement Sel.checkboxId ::
                Ev.readSelected (select_all_orders_on_page env.selectEnv).checked ::
                ((click_shipping_then_get_label env.menuEnv).1 ++
                  (click_review_purchase env.reviewEnv).1 ++ [Ev.promptDone])),
              ?_, ?_⟩
            · simp [h1, h2, h3, hro, hrm, hrr]
            · simp [List.count_cons, List.count_append, hsel, hmenu, hrev,
                beq_iff_eq]
      · have h3' : env.stateReadOk = false := by simpa using h3
        refine ⟨Ev.navigate :: ((select_all_orders_on_page env.selectEnv).trace
          ++ [Ev.findElement Sel.checkboxId]), ?_, ?_⟩
        · simp [h1, h2, h3', hro]
        · simp [List.count_cons, List.count_append, hsel, beq_iff_eq]
  · have h2' : env.get2Ok = false := by simpa using h2
    exact ⟨[Ev.navigate], by simp [h1, h2'], by simp [List.count_cons]⟩

/-- C6: when the first navigation succeeds and the landing URL contains
"signin", `main` blocks for console input before re-navigating to the
target URL, and exactly one navigation happens after the pause (the one
before it being the initial navigation). -/
theorem main_signin_pauses_before_renavigating (env : MainEnv)
    (hb : env.buildOk = true) (h1 : env.get1Ok = true)
    (h2 : containsSub "signin" (env.landedUrl.getD "") = true) :
    ∃ pre post, (main env).1 = pre ++ Ev.pauseForLogin :: post ∧
      pre.count Ev.navigate = 1 ∧ post.count Ev.navigate = 1 := by
  have hp : pause_needed env.landedUrl = true := by
    unfold pause_needed
    have := containsSub_py_lower "signin" (env.landedUrl.getD "")
      (by decide) h2
    simp [this]
  obtain ⟨rest, hbody, hcount⟩ := main_try_body_pause_decomp env h1 hp
  have hkill : (kill_chrome_using_profile PROFILE_DIR env.procs).count
      Ev.navigate = 0 :=
    kill_count_zero _ _ _ (fun n h => by cases h)
  refine ⟨Ev.mkProfileDir ::
      (kill_chrome_using_profile PROFILE_DIR env.procs ++
        [Ev.buildDriver, Ev.navigate, Ev.printLanded, Ev.readUrl]),
    rest ++ [Ev.quit], ?_, ?_, ?_⟩
  · simp [main, hb, hbody]
  · simp [List.count_cons, List.count_append, hkill, beq_iff_eq]
  · simp [List.count_cons, List.count_append, hcount, beq_iff_eq]

/-- Whole-run environment for the sign-in witness. -/
def envMainSignin : MainEnv :=
  { procs := [], buildOk := true, get1Ok := true,
    landedUrl := some "https://signin.ebay.com/ws/eBayISAPI.dll", get2Ok := true,
    selectEnv := envSelOk, stateReadOk := true, menuEnv := envMenuOk,
    reviewEnv := envRevOk }

/-- Witness for C6 at the concrete environment `envMainSignin`. -/
theorem main_signin_pauses_before_renavigating_witness :
    (envMainSignin.buildOk = true ∧ envMainSignin.get1Ok = true ∧
     containsSub "signin" (envMainSignin.landedUrl.getD "") = true) ∧
    (∃ pre post, (main envMainSignin).1 = pre ++ Ev.pauseForLogin :: post ∧
      pre.count Ev.navigate = 1 ∧ post.count Ev.navigate = 1) :=
  ⟨⟨rfl, rfl, by decide⟩,
   main_signin_pauses_before_renavigating envMainSignin rfl rfl (by decide)⟩

/-- Once the first navigation succeeds, the try body always navigates a
second time: its trace holds exactly two navigation events whatever the
landing URL and whatever the later steps do. -/
theorem main_try_body_two_navigations (env : MainEnv)
    (h1 : env.get1Ok = true) :
    (main_try_body env).1.count Ev.navigate = 2 := by
  have hsel := stepEv_count_zero _ (select_all_stepEv env.selectEnv)
    Ev.navigate rfl
  have hmenu := stepEv_count_zero _ (click_shipping_stepEv env.menuEnv)
    Ev.navigate rfl
  have hrev := stepEv_count_zero _ (click_review_stepEv env.reviewEnv)
    Ev.navigate rfl
  have hens : (ensure_logged_in_or_pause env.landedUrl).count Ev.navigate
      = 0 := by
    unfold ensure_logged_in_or_pause
    split_ifs <;> decide
  unfold main_try_body
  by_cases h2 : env.get2Ok = true
  · cases hro : (select_all_orders_on_page env.selectEnv).outcome with
    | err e =>
      simp [h1, h2, hro, List.count_append, List.count_cons, hsel, hens,
        beq_iff_eq]
    | ok =>
      by_cases h3 : env.stateReadOk = true
      · cases hrm : (click_shipping_then_get_label env.menuEnv).2 with
        | err e =>
          simp [h1, h2, h3, hro, hrm, List.count_append, List.count_cons,
            hsel, hmenu, hens, beq_iff_eq]
        | ok =>
          cases hrr : (click_review_purchase env.reviewEnv).2 with
          | err e =>
            simp [h1, h2, h3, hro, hrm, hrr, List.count_append,
              List.count_cons, hsel, hmenu, hrev, hens, beq_iff_eq]
          | ok =>
            simp [h1, h2, h3, hro, hrm, hrr, List.count_append,
              List.count_cons, hsel, hmenu, hrev, hens, beq_iff_eq]
      · have h3' : env.stateReadOk = false := by simpa using h3
        simp [h1, h2, h3', hro, List.count_append, List.count_cons, hsel,
          hens, beq_iff_eq]
  · have h2' : env.get2Ok = false := by simpa using h2
    simp [h1, h2', List.count_append, List.count_cons, hens, beq_iff_eq]

/-- The try body pauses for login exactly when the pause condition of
`ensure_logged_in_or_pause` holds. -/
theorem main_try_body_pause_mem (env : MainEnv) (h1 : env.get1Ok = true) :
    (Ev.pauseForLogin ∈ (main_try_body env).1 ↔
      pause_needed env.landedUrl = true) := by
  have hsel := stepEv_not_mem _ (select_all_stepEv env.selectEnv)
    Ev.pauseForLogin rfl
  have hmenu := stepEv_not_mem _ (click_shipping_stepEv env.menuEnv)
    Ev.pauseForLogin rfl
  have hrev := stepEv_not_mem _ (click_review_stepEv env.reviewEnv)
    Ev.pauseForLogin rfl
  have hens : Ev.pauseForLogin ∈ ensure_logged_in_or_pause env.landedUrl ↔
      pause_needed env.landedUrl = true := by
    unfold ensure_logged_in_or_pause
    split_ifs with h <;> simp [h]
  unfold main_try_body
  by_cases h2 : env.get2Ok = true
  · cases hro : (select_all_orders_on_page env.selectEnv).outcome with
    | err e =>
      simp [h1, h2, hro, List.mem_append, hsel, hens]
    | ok =>
      by_cases h3 : env.stateReadOk = true
      · cases hrm : (click_shipping_then_get_label env.menuEnv).2 with
        | err e =>
          simp [h1, h2, h3, hro, hrm, List.mem_append, hsel, hmenu, hens]
        | ok =>
          cases hrr : (click_review_purchase env.reviewEnv).2 with
          | err e =>
            simp [h1, h2, h3, hro, hrm, hrr, List.mem_append, hsel, hmenu,
              hrev, hens]
          | ok =>
            simp [h1, h2, h3, hro, hrm, hrr, List.mem_append, hsel, hmenu,
              hrev, hens]
      · have h3' : env.stateReadOk = false := by simpa using h3
        simp [h1, h2, h3', hro, List.mem_append, hsel, hens]
  · have h2' : env.get2Ok = false := by simpa using h2
    simp [h1, h2', List.mem_append, hens]

/-- C9: once the session is up and the first navigation succeeds, the
second navigation to the target URL happens on every run — the whole
trace of `main` holds exactly two navigation events whether or not a
pause occurred — and the login pause occurs exactly when the lower-cased
landing URL contains "signin" or contains "login". -/
theorem main_renavigates_unconditionally (env : MainEnv)
    (hb : env.buildOk = true) (h1 : env.get1Ok = true) :
    (main env).1.count Ev.navigate = 2 ∧
    (Ev.pauseForLogin ∈ (main env).1 ↔
      (containsSub "signin" (py_lower (env.landedUrl.getD "")) = true ∨
       containsSub "login" (py_lower (env.landedUrl.getD "")) = true)) := by
  have hkill : (kill_chrome_using_profile PROFILE_DIR env.procs).count
      Ev.navigate = 0 :=
    kill_count_zero _ _ _ (fun n h => by cases h)
  have hkillm : Ev.pauseForLogin ∉
      kill_chrome_using_profile PROFILE_DIR env.procs := by
    intro hm
    rcases List.mem_map.mp hm with ⟨p, _, hp⟩
    cases hp
  constructor
  · simp [main, hb, List.count_append, List.count_cons, hkill,
      main_try_body_two_navigations env h1, beq_iff_eq]
  · rw [show (containsSub "signin" (py_lower (env.landedUrl.getD "")) = true ∨
        containsSub "login" (py_lower (env.landedUrl.getD "")) = true) ↔
        pause_needed env.landedUrl = true by
      simp [pause_needed, Bool.or_eq_true]]
    rw [← main_try_body_pause_mem env h1]
    simp [main, hb, List.mem_append, hkillm]

/-- Whole-run environment for the C9 witness: a landing URL that
contains "login" but not "signin", so the pause triggers through the
second disjunct. -/
def envMainLogin : MainEnv :=
  { procs := [], buildOk := true, get1Ok := true,
    landedUrl := some "https://www.ebay.com/Login?ru=x", get2Ok := true,
    selectEnv := envSelOk, stateReadOk := true, menuEnv := envMenuOk,
    reviewEnv := envRevOk }

/-- Witness for C9 at the concrete environment `envMainLogin`. -/
theorem main_renavigates_unconditionally_witness :
    (envMainLogin.buildOk = true ∧ envMainLogin.get1Ok = true) ∧
    ((main envMainLogin).1.count Ev.navigate = 2 ∧
     (Ev.pauseForLogin ∈ (main envMainLogin).1 ↔
       (containsSub "signin" (py_lower (envMainLogin.landedUrl.getD ""))
          = true ∨
        containsSub "login" (py_lower (envMainLogin.landedUrl.getD ""))
          = true))) :=
  ⟨⟨rfl, rfl⟩, main_renavigates_unconditionally envMainLogin rfl rfl⟩

/-- C8 (amended): (1) the stale-session cleanup terminates exactly those
running processes whose lower-cased name contains "chrome", whose
command line is present, non-empty and contains the absolute profile
path, and whose kill raises no `NoSuchProcess` / `AccessDenied` — an
error on one process is ignored and the remaining processes are still
processed; (2) on every run, `main` performs this cleanup before the new
browser session is built. -/
theorem kill_chrome_kills_matching_before_build (profile : String)
    (procs : List Proc) (n : Nat) (env : MainEnv) :
    (Ev.killProc n ∈ kill_chrome_using_profile profile procs ↔
      ∃ p, p ∈ procs ∧ p.pid = n ∧ proc_matches profile p = true ∧
        p.killOk = true) ∧
    (∃ rest, (main env).1 = Ev.mkProfileDir ::
      (kill_chrome_using_profile PROFILE_DIR env.procs ++
        Ev.buildDriver :: rest)) := by
  constructor
  · unfold kill_chrome_using_profile
    simp only [List.mem_map, List.mem_filter, Bool.and_eq_true]
    constructor
    · rintro ⟨p, ⟨hp, hm, hk⟩, heq⟩
      have hpid : p.pid = n := by
        simpa using heq
      exact ⟨p, hp, hpid, hm, hk⟩
    · rintro ⟨p, hp, hpid, hm, hk⟩
      exact ⟨p, ⟨hp, hm, hk⟩, by rw [hpid]⟩
  · by_cases hb : env.buildOk = true
    · exact ⟨(main_try_body env).1 ++ [Ev.quit], by simp [main, hb]⟩
    · have hb' : env.buildOk = false := by simpa using hb
      exact ⟨[], by simp [main, hb']⟩

/-- Process whose kill raises `AccessDenied`: it matches the profile but
survives the cleanup. -/
def procDenied : Proc :=
  { pid := 77, name := some "chrome.exe",
    cmdline := some ["chrome.exe", "--user-data-dir=/home/u/chrome_profile_selenium"],
    killOk := false }

/-- Counterexample to C8 as stated: a running process whose name
contains the browser name and whose command line contains the
absolute profile path, yet which is not terminated by the cleanup
(its kill raised `AccessDenied`, caught at src line 67), so a prior
session bound to the profile directory can survive the launch. -/
theorem kill_chrome_access_denied_cex :
    proc_matches "/home/u/chrome_profile_selenium" procDenied = true ∧
    kill_chrome_using_profile "/home/u/chrome_profile_selenium" [procDenied]
      = [] := by
  constructor
  · decide
  · decide

end EbayShipping
